import Mathlib

/-!
Shallow embedding of the transcript segmentation engine of
src/parse_transcripts.py.  Python strings are modelled as Lean `String`
(Unicode-sensitive Python predicates such as str.isdigit, str.lower and
the \s / \d regex classes are modelled at their ASCII behaviour, which is
what every transcript line in scope exercises).  The scanning loop of
parse_transcript is modelled as a fuel-indexed recursion; the fuel bound
lines.length + 1 is proved sufficient below.
-/

namespace TranscriptParse

/-- ASCII whitespace, the characters Python str.strip and str.split
remove (space, tab, newline, carriage return, form feed, vertical tab). -/
def isPySpace (c : Char) : Bool :=
  c = ' ' || c = '\t' || c = '\n' || c = '\x0d' || c = '\x0c' || c = '\x0b'

/-- Python line.strip(): drop leading and trailing whitespace. -/
def pyStrip (s : String) : String :=
  String.mk (((s.data.dropWhile isPySpace).reverse.dropWhile isPySpace).reverse)

/-- Does the character list begin with the given pattern? -/
def charsStart : List Char → List Char → Bool
  | [], _ => true
  | _ :: _, [] => false
  | p :: ps, c :: cs => p = c && charsStart ps cs

/-- Does the character list contain the given pattern as a contiguous run? -/
def charsContain (pat : List Char) : List Char → Bool
  | [] => pat.isEmpty
  | c :: t => charsStart pat (c :: t) || charsContain pat t

/-- Python `pat in s` (substring containment). -/
def strContains (s pat : String) : Bool :=
  charsContain pat.data s.data

/-- Python s.startswith(pat). -/
def strStarts (s pat : String) : Bool :=
  charsStart pat.data s.data

/-- Python s.lower() at its ASCII behaviour. -/
def strLower (s : String) : String :=
  String.mk (s.data.map Char.toLower)

/-- re.match(r"<c>{30,}", line): the line begins with at least 30 copies
of the marker character. -/
def isRun (c : Char) (s : String) : Bool :=
  charsStart (List.replicate 30 c) s.data

/-- SECTION_SEPARATOR_PATTERN: a run of at least 30 equals signs. -/
def isSectionSep (s : String) : Bool := isRun '=' s

/-- SPEAKER_SEPARATOR_PATTERN: a run of at least 30 dashes. -/
def isSpeakerSep (s : String) : Bool := isRun '-' s

/-- Python line.isdigit() at its ASCII behaviour: non-empty and all
decimal digits. -/
def pyIsDigit (s : String) : Bool :=
  !s.data.isEmpty && s.data.all Char.isDigit

/-- Helper of pySplit: accumulate the current (reversed) token. -/
def wordsAux : List Char → List Char → List String
  | [], acc => if acc.isEmpty then [] else [String.mk acc.reverse]
  | c :: t, acc =>
    if isPySpace c then
      if acc.isEmpty then wordsAux t [] else String.mk acc.reverse :: wordsAux t []
    else wordsAux t (c :: acc)

/-- Python s.split() with no argument: whitespace-delimited tokens,
empty tokens dropped. -/
def pySplit (s : String) : List String := wordsAux s.data []

/-- Speaker roles (the three strings ROLE_MANAGEMENT / ROLE_ANALYST /
ROLE_OPERATOR; Python `None` is `Option.none` around this type). -/
inductive Role where
  | Management
  | Analyst
  | Operator
deriving DecidableEq

/-- Transcript sections (SECTION_PRESENTATION / SECTION_QA; Python
`None` is `Option.none` around this type). -/
inductive Sec where
  | Presentation
  | QA
deriving DecidableEq

/-- The management_titles list of determine_speaker_role. -/
def management_titles : List String :=
  ["CEO", "CFO", "CTO", "President", "Officer",
   "Relations", "Counsel", "Controller", "Vice President",
   "Chief", "Manager", "Director"]

/-- determine_speaker_role: Operator test first, then the management
title keywords, then the Analyst test, defaulting to Analyst. -/
def determine_speaker_role (speaker_line : String) : Role :=
  if strContains speaker_line "Operator" then Role.Operator
  else if management_titles.any (fun t => strContains speaker_line t) then Role.Management
  else if strContains speaker_line "Analyst" then Role.Analyst
  else Role.Analyst

/-- One attempted match of the regex Q[1-4]\s+\d{4} anchored at the head
of the character list (\s and \d at their ASCII behaviour; because \s
and \d are disjoint, the greedy \s+ never needs to backtrack). -/
def matchQuarterAt : List Char → Option (List Char)
  | 'Q' :: d :: rest =>
    if d = '1' || d = '2' || d = '3' || d = '4' then
      let ws := rest.takeWhile isPySpace
      let rest2 := rest.drop ws.length
      if !ws.isEmpty && decide (4 ≤ rest2.length) && (rest2.take 4).all Char.isDigit then
        some ('Q' :: d :: (ws ++ rest2.take 4))
      else none
    else none
  | _ => none

/-- re.search of QUARTER_PATTERN over one line: the leftmost match. -/
def searchQuarter : List Char → Option String
  | [] => none
  | c :: t =>
    match matchQuarterAt (c :: t) with
    | some m => some (String.mk m)
    | none => searchQuarter t

/-- extract_quarter: first QUARTER_PATTERN match within the first 20
lines; the filename fallback of the source is a no-op, so no match
yields the empty string. -/
def extract_quarter (lines : List String) (filename : String) : String :=
  match (lines.take 20).findSome? (fun l => searchQuarter l.data) with
  | some q => q
  | none => ""

/-- The three content accumulator lists of parse_transcript. -/
structure Bufs where
  pr : List String
  qm : List String
  qa : List String
deriving DecidableEq

def emptyBufs : Bufs := ⟨[], [], []⟩

/-- The output record of parse_transcript. -/
structure Record where
  ticker : String
  quarter : String
  prepared_remarks : String
  qa_management : String
  qa_analysts : String
  word_count_prepared_remarks : Nat
  word_count_qa_management : Nat
  word_count_qa_analysts : Nat
deriving DecidableEq

/-- The lookahead loops `while j < len(lines) and not lines[j]: j += 1`:
the first index at or after j whose line is non-empty (or the length). -/
def skipBlanks (lines : List String) (j : Nat) : Nat :=
  j + ((lines.drop j).takeWhile (fun l => decide (l = ""))).length

/-- The routing branch of Case 3 of the source loop: which accumulator
(if any) receives a content line that passed the guard and the filters,
as a function of the current section and role. -/
def routeBuf (sec : Option Sec) (role : Option Role) (bufs : Bufs) (line : String) : Bufs :=
  match sec, role with
  | some Sec.Presentation, _ => { bufs with pr := bufs.pr ++ [line] }
  | some Sec.QA, some Role.Management => { bufs with qm := bufs.qm ++ [line] }
  | some Sec.QA, some Role.Analyst => { bufs with qa := bufs.qa ++ [line] }
  | _, _ => bufs

/-- The scanning loop of parse_transcript, indexed by fuel; every
iteration advances the line index by at least one, so fuel
lines.length + 1 suffices from index 0 (proved in parseLoopF_isSome). -/
def parseLoopF : Nat → List String → Nat → Option Sec → Option Role → Bufs → Option Bufs
  | 0, _, _, _, _, _ => none
  | fuel + 1, lines, i, sec, role, bufs =>
    if i < lines.length then
      let line := lines.getD i ""
      if isSectionSep line then
        -- Case 1: section change
        let j := skipBlanks lines (i + 1)
        if j < lines.length then
          let cap := strLower (lines.getD j "")
          if strContains cap "presentation" then
            parseLoopF fuel lines (j + 1) (some Sec.Presentation) role bufs
          else if strContains cap "questions and answers" || strContains cap "q&a" then
            parseLoopF fuel lines (j + 1) (some Sec.QA) role bufs
          else if strContains cap "definitions" || strContains cap "disclaimer" then
            some bufs
          else
            parseLoopF fuel lines (i + 1) sec role bufs
        else
          parseLoopF fuel lines (i + 1) sec role bufs
      else if isSpeakerSep line then
        -- Case 2: speaker change
        let j := skipBlanks lines (i + 1)
        if j < lines.length then
          let nameLine := lines.getD j ""
          let k := skipBlanks lines (j + 1)
          if k < lines.length && isSpeakerSep (lines.getD k "") then
            parseLoopF fuel lines (k + 1) sec (some (determine_speaker_role nameLine)) bufs
          else
            parseLoopF fuel lines (i + 1) sec role bufs
        else
          parseLoopF fuel lines (i + 1) sec role bufs
      else
        -- Case 3: content line
        if !line.isEmpty && sec.isSome && !(role == some Role.Operator) then
          if pyIsDigit line || strStarts line "Thomson Reuters" then
            parseLoopF fuel lines (i + 1) sec role bufs
          else
            parseLoopF fuel lines (i + 1) sec role (routeBuf sec role bufs line)
        else
          parseLoopF fuel lines (i + 1) sec role bufs
    else
      some bufs

/-- parse_transcript modulo file I/O: the caller supplies the raw lines
of the file; each is stripped, the quarter extracted, the scan run, and
the record assembled exactly as at the end of the source function. -/
def parse_transcript (rawLines : List String) (ticker filename : String) : Record :=
  let lines := rawLines.map pyStrip
  let quarter := extract_quarter lines filename
  let bufs := (parseLoopF (lines.length + 1) lines 0 none none emptyBufs).getD emptyBufs
  { ticker := ticker
    quarter := quarter
    prepared_remarks := String.intercalate " " bufs.pr
    qa_management := String.intercalate " " bufs.qm
    qa_analysts := String.intercalate " " bufs.qa
    word_count_prepared_remarks := (pySplit (String.intercalate " " bufs.pr)).length
    word_count_qa_management := (pySplit (String.intercalate " " bufs.qm)).length
    word_count_qa_analysts := (pySplit (String.intercalate " " bufs.qa)).length }

/-! ### Helper lemmas about the embedding -/

theorem skipBlanks_le (lines : List String) (j : Nat) : j ≤ skipBlanks lines j :=
  Nat.le_add_right _ _

theorem skipBlanks_eq_self (lines : List String) (j : Nat)
    (hj : j < lines.length) (hnb : lines.getD j "" ≠ "") :
    skipBlanks lines j = j := by
  unfold skipBlanks
  rw [List.drop_eq_getElem_cons hj, List.takeWhile_cons]
  rw [List.getD_eq_getElem lines "" hj] at hnb
  simp [hnb]

theorem isRun_head {c₀ : Char} {s : String} (h : isRun c₀ s = true) :
    s.data.head? = some c₀ := by
  unfold isRun at h
  rw [show (30 : Nat) = 29 + 1 from rfl, List.replicate_succ] at h
  cases hd : s.data with
  | nil => rw [hd] at h; simp [charsStart] at h
  | cons c t =>
    rw [hd] at h
    simp only [charsStart, Bool.and_eq_true, decide_eq_true_eq] at h
    simp [h.1]

theorem speaker_not_section {s : String} (h : isSpeakerSep s = true) :
    isSectionSep s = false := by
  by_contra hc
  have h2 : isSectionSep s = true := by
    revert hc; cases isSectionSep s <;> simp
  have ha := isRun_head h
  have hb := isRun_head h2
  rw [ha] at hb
  simp at hb

/-- The fuel bound lines.length + 1 always suffices: every iteration of
the scanning loop advances the line index by at least one. -/
theorem parseLoopF_isSome :
    ∀ (fuel : Nat) (lines : List String) (i : Nat) (sec : Option Sec)
      (role : Option Role) (bufs : Bufs),
      lines.length - i < fuel →
      (parseLoopF fuel lines i sec role bufs).isSome = true := by
  intro fuel
  induction fuel with
  | zero => intro lines i sec role bufs h; omega
  | succ n ih =>
    intro lines i sec role bufs h
    have hj := skipBlanks_le lines (i + 1)
    have hk := skipBlanks_le lines (skipBlanks lines (i + 1) + 1)
    simp only [parseLoopF]
    repeat' split
    all_goals first
      | rfl
      | exact ih _ _ _ _ _ (by omega)

/-- Section step, recognized Presentation caption: the scan resumes just
past the caption with the section set and the role untouched. -/
theorem sectionStep_pres (fuel : Nat) (lines : List String) (i : Nat)
    (sec : Option Sec) (role : Option Role) (bufs : Bufs)
    (hi : i < lines.length)
    (hsec : isSectionSep (lines.getD i "") = true)
    (hj : skipBlanks lines (i + 1) < lines.length)
    (hcap : strContains (strLower (lines.getD (skipBlanks lines (i + 1)) "")) "presentation" = true) :
    parseLoopF (fuel + 1) lines i sec role bufs =
      parseLoopF fuel lines (skipBlanks lines (i + 1) + 1) (some Sec.Presentation) role bufs := by
  simp only [parseLoopF]
  rw [if_pos hi, if_pos hsec, if_pos hj, if_pos hcap]

/-- Section step, recognized Q&A caption (and no Presentation match):
the scan resumes just past the caption with the section set to QA and
the role untouched. -/
theorem sectionStep_qa (fuel : Nat) (lines : List String) (i : Nat)
    (sec : Option Sec) (role : Option Role) (bufs : Bufs)
    (hi : i < lines.length)
    (hsec : isSectionSep (lines.getD i "") = true)
    (hj : skipBlanks lines (i + 1) < lines.length)
    (hnp : strContains (strLower (lines.getD (skipBlanks lines (i + 1)) "")) "presentation" = false)
    (hqa : strContains (strLower (lines.getD (skipBlanks lines (i + 1)) "")) "questions and answers" = true ∨
           strContains (strLower (lines.getD (skipBlanks lines (i + 1)) "")) "q&a" = true) :
    parseLoopF (fuel + 1) lines i sec role bufs =
      parseLoopF fuel lines (skipBlanks lines (i + 1) + 1) (some Sec.QA) role bufs := by
  have hor : (strContains (strLower (lines.getD (skipBlanks lines (i + 1)) "")) "questions and answers" ||
      strContains (strLower (lines.getD (skipBlanks lines (i + 1)) "")) "q&a") = true := by
    rcases hqa with h | h <;> rw [h] <;> simp
  simp only [parseLoopF]
  rw [if_pos hi, if_pos hsec, if_pos hj,
      if_neg (by rw [hnp]; exact Bool.false_ne_true), if_pos hor]

/-- Section step, terminal caption: when the caption matches neither
Presentation nor Q&A but mentions definitions or disclaimer, the loop
returns its accumulators at once. -/
theorem sectionStep_halt (fuel : Nat) (lines : List String) (i : Nat)
    (sec : Option Sec) (role : Option Role) (bufs : Bufs)
    (hi : i < lines.length)
    (hsec : isSectionSep (lines.getD i "") = true)
    (hj : skipBlanks lines (i + 1) < lines.length)
    (hnp : strContains (strLower (lines.getD (skipBlanks lines (i + 1)) "")) "presentation" = false)
    (hnq1 : strContains (strLower (lines.getD (skipBlanks lines (i + 1)) "")) "questions and answers" = false)
    (hnq2 : strContains (strLower (lines.getD (skipBlanks lines (i + 1)) "")) "q&a" = false)
    (hterm : strContains (strLower (lines.getD (skipBlanks lines (i + 1)) "")) "definitions" = true ∨
             strContains (strLower (lines.getD (skipBlanks lines (i + 1)) "")) "disclaimer" = true) :
    parseLoopF (fuel + 1) lines i sec role bufs = some bufs := by
  have hor : (strContains (strLower (lines.getD (skipBlanks lines (i + 1)) "")) "definitions" ||
      strContains (strLower (lines.getD (skipBlanks lines (i + 1)) "")) "disclaimer") = true := by
    rcases hterm with h | h <;> rw [h] <;> simp
  simp only [parseLoopF]
  rw [if_pos hi, if_pos hsec, if_pos hj,
      if_neg (by rw [hnp]; exact Bool.false_ne_true),
      if_neg (by rw [hnq1, hnq2]; simp), if_pos hor]

/-- Speaker step without a closing marker: a stray dash separator is
stepped over, leaving section, role and all accumulators unchanged. -/
theorem speakerStep_invalid (fuel : Nat) (lines : List String) (i : Nat)
    (sec : Option Sec) (role : Option Role) (bufs : Bufs)
    (hi : i < lines.length)
    (hsep : isSpeakerSep (lines.getD i "") = true)
    (hnext : i + 1 < lines.length)
    (hnb : lines.getD (i + 1) "" ≠ "")
    (hk : ¬(skipBlanks lines (i + 2) < lines.length ∧
            isSpeakerSep (lines.getD (skipBlanks lines (i + 2)) "") = true)) :
    parseLoopF (fuel + 1) lines i sec role bufs =
      parseLoopF fuel lines (i + 1) sec role bufs := by
  have hns := speaker_not_section hsep
  have hjj : skipBlanks lines (i + 1) = i + 1 := skipBlanks_eq_self lines (i + 1) hnext hnb
  have hkb : (decide (skipBlanks lines (i + 2) < lines.length) &&
      isSpeakerSep (lines.getD (skipBlanks lines (i + 2)) "")) = false := by
    by_cases hlt : skipBlanks lines (i + 2) < lines.length
    · cases hsp : isSpeakerSep (lines.getD (skipBlanks lines (i + 2)) "") with
      | true => exact absurd ⟨hlt, hsp⟩ hk
      | false => simp
    · rw [decide_eq_false hlt]; simp
  simp only [parseLoopF]
  rw [if_pos hi, if_neg (by rw [hns]; exact Bool.false_ne_true), if_pos hsep, hjj,
      if_pos hnext, show i + 1 + 1 = i + 2 from rfl,
      if_neg (by rw [hkb]; exact Bool.false_ne_true)]

/-- Content step when the routing guard fails (blank line, unset
section, or Operator role): nothing is appended. -/
theorem contentStep_skip (fuel : Nat) (lines : List String) (i : Nat)
    (sec : Option Sec) (role : Option Role) (bufs : Bufs)
    (hi : i < lines.length)
    (h1 : isSectionSep (lines.getD i "") = false)
    (h2 : isSpeakerSep (lines.getD i "") = false)
    (hguard : (!(lines.getD i "").isEmpty && sec.isSome && !(role == some Role.Operator)) = false) :
    parseLoopF (fuel + 1) lines i sec role bufs =
      parseLoopF fuel lines (i + 1) sec role bufs := by
  simp only [parseLoopF]
  rw [if_pos hi, if_neg (by rw [h1]; exact Bool.false_ne_true),
      if_neg (by rw [h2]; exact Bool.false_ne_true),
      if_neg (by rw [hguard]; exact Bool.false_ne_true)]

/-- Content step for a digit-only or vendor-watermark line: the line is
filtered out, nothing appended. -/
theorem contentStep_filtered (fuel : Nat) (lines : List String) (i : Nat)
    (sec : Option Sec) (role : Option Role) (bufs : Bufs)
    (hi : i < lines.length)
    (h1 : isSectionSep (lines.getD i "") = false)
    (h2 : isSpeakerSep (lines.getD i "") = false)
    (hguard : (!(lines.getD i "").isEmpty && sec.isSome && !(role == some Role.Operator)) = true)
    (hfil : (pyIsDigit (lines.getD i "") || strStarts (lines.getD i "") "Thomson Reuters") = true) :
    parseLoopF (fuel + 1) lines i sec role bufs =
      parseLoopF fuel lines (i + 1) sec role bufs := by
  simp only [parseLoopF]
  rw [if_pos hi, if_neg (by rw [h1]; exact Bool.false_ne_true),
      if_neg (by rw [h2]; exact Bool.false_ne_true), if_pos hguard, if_pos hfil]

/-- Content step that routes: the line is appended to the accumulator
selected by the current section and role, exactly as in the source. -/
theorem contentStep_append (fuel : Nat) (lines : List String) (i : Nat)
    (sec : Option Sec) (role : Option Role) (bufs : Bufs)
    (hi : i < lines.length)
    (h1 : isSectionSep (lines.getD i "") = false)
    (h2 : isSpeakerSep (lines.getD i "") = false)
    (hguard : (!(lines.getD i "").isEmpty && sec.isSome && !(role == some Role.Operator)) = true)
    (hfil : (pyIsDigit (lines.getD i "") || strStarts (lines.getD i "") "Thomson Reuters") = false) :
    parseLoopF (fuel + 1) lines i sec role bufs =
      parseLoopF fuel lines (i + 1) sec role (routeBuf sec role bufs (lines.getD i "")) := by
  simp only [parseLoopF]
  rw [if_pos hi, if_neg (by rw [h1]; exact Bool.false_ne_true),
      if_neg (by rw [h2]; exact Bool.false_ne_true), if_pos hguard,
      if_neg (by rw [hfil]; exact Bool.false_ne_true)]

/-- A transcript without a single marker line leaves the state machine
in the unset section forever, so the accumulators come back untouched. -/
theorem noMarker_run :
    ∀ (fuel : Nat) (lines : List String) (i : Nat) (role : Option Role) (bufs : Bufs),
      (∀ l ∈ lines, isSectionSep l = false ∧ isSpeakerSep l = false) →
      lines.length - i < fuel →
      parseLoopF fuel lines i none role bufs = some bufs := by
  intro fuel
  induction fuel with
  | zero => intro lines i role bufs _ h; omega
  | succ n ih =>
    intro lines i role bufs hall h
    by_cases hi : i < lines.length
    · have hmem : lines.getD i "" ∈ lines := by
        rw [List.getD_eq_getElem lines "" hi]; exact List.getElem_mem hi
      have h1 := (hall _ hmem).1
      have h2 := (hall _ hmem).2
      rw [contentStep_skip n lines i none role bufs hi h1 h2 (by simp)]
      exact ih lines (i + 1) role bufs hall (by omega)
    · simp only [parseLoopF]
      rw [if_neg hi]

/-! ### Concrete transcripts used by the end-to-end claims -/

def dashLine : String := String.mk (List.replicate 30 '-')

def equalsLine : String := String.mk (List.replicate 30 '=')

/-- The end-to-end scenario transcript of the spec. -/
def c1lines : List String :=
  [equalsLine, "", "Presentation",
   dashLine, "Jane Doe, Chief Financial Officer", dashLine,
   "Revenue grew 10%.",
   dashLine, "Operator", dashLine,
   "Next question please."]

/-- A transcript whose section caption mentions both a recognized
section name and the word Disclaimer. -/
def c4lines : List String :=
  [equalsLine, "Presentation and Disclaimer",
   dashLine, "John Smith, CEO", dashLine,
   "Later line"]

/-! ### The claims -/

/-- C3: for every input transcript, each of the three word-count fields
of the emitted record equals the number of whitespace-delimited tokens
of a split of the corresponding joined text body. -/
theorem c3_word_count_consistency (rawLines : List String) (ticker filename : String) :
    (parse_transcript rawLines ticker filename).word_count_prepared_remarks =
      (pySplit (parse_transcript rawLines ticker filename).prepared_remarks).length ∧
    (parse_transcript rawLines ticker filename).word_count_qa_management =
      (pySplit (parse_transcript rawLines ticker filename).qa_management).length ∧
    (parse_transcript rawLines ticker filename).word_count_qa_analysts =
      (pySplit (parse_transcript rawLines ticker filename).qa_analysts).length :=
  ⟨rfl, rfl, rfl⟩

/-- C9: the segmentation scan always runs to completion: from any
start state the loop finishes within fuel lines.length + 1 and returns
accumulators, for every sequence of input lines, however malformed; in
particular the scan inside parse_transcript always completes. -/
theorem c9_parse_total :
    (∀ (lines : List String) (i : Nat) (sec : Option Sec) (role : Option Role) (bufs : Bufs),
      (parseLoopF (lines.length + 1) lines i sec role bufs).isSome = true) ∧
    (∀ rawLines : List String, ∃ b : Bufs,
      parseLoopF ((rawLines.map pyStrip).length + 1) (rawLines.map pyStrip)
        0 none none emptyBufs = some b) := by
  constructor
  · intro lines i sec role bufs
    exact parseLoopF_isSome _ _ _ _ _ _ (by omega)
  · intro rawLines
    exact Option.isSome_iff_exists.mp (parseLoopF_isSome _ _ _ _ _ _ (by omega))

/-- C6: the role classifier decides by first match in source order,
with case-sensitive substring tests: Operator, then the management
title keywords, then Analyst, then Analyst by default; in particular a
line containing both Operator and a title keyword yields Operator. -/
theorem c6_role_classifier_order :
    (∀ line : String, strContains line "Operator" = true →
      determine_speaker_role line = Role.Operator) ∧
    (∀ line : String, strContains line "Operator" = false →
      management_titles.any (fun t => strContains line t) = true →
      determine_speaker_role line = Role.Management) ∧
    (∀ line : String, strContains line "Operator" = false →
      management_titles.any (fun t => strContains line t) = false →
      strContains line "Analyst" = true →
      determine_speaker_role line = Role.Analyst) ∧
    (∀ line : String, strContains line "Operator" = false →
      management_titles.any (fun t => strContains line t) = false →
      strContains line "Analyst" = false →
      determine_speaker_role line = Role.Analyst) ∧
    determine_speaker_role "Operator - Chief Executive Officer" = Role.Operator := by
  refine ⟨fun line h1 => ?_, fun line h1 h2 => ?_, fun line h1 h2 h3 => ?_,
    fun line h1 h2 h3 => ?_, by decide⟩
  · simp [determine_speaker_role, h1]
  · simp [determine_speaker_role, h1, h2]
  · simp [determine_speaker_role, h1, h2, h3]
  · simp [determine_speaker_role, h1, h2, h3]

/-- Witness for C6: a titled executive line with no Operator keyword is
classified Management through the second decision step. -/
theorem c6_role_classifier_order_witness :
    determine_speaker_role "Jane Doe, Chief Financial Officer" = Role.Management :=
  c6_role_classifier_order.2.1 "Jane Doe, Chief Financial Officer" (by decide) (by decide)

/-- C7: the quarter extractor looks only at the first 20 lines, yields
the empty string when no line has a match, and returns the first
Q-digit-whitespace-year match verbatim, as on the scenario line. -/
theorem c7_quarter_extractor :
    (∀ (lines : List String) (filename : String),
      extract_quarter lines filename = extract_quarter (lines.take 20) filename) ∧
    (∀ (lines : List String) (filename : String),
      (∀ l ∈ lines, searchQuarter l.data = none) →
      extract_quarter lines filename = "") ∧
    searchQuarter ("Q2 2022 Earnings Call").data = some "Q2 2022" ∧
    extract_quarter ["Q2 2022 Earnings Call"] "file.txt" = "Q2 2022" := by
  refine ⟨?_, ?_, by decide, by decide⟩
  · intro lines filename
    simp [extract_quarter, List.take_take]
  · intro lines filename h
    have hn : (lines.take 20).findSome? (fun l => searchQuarter l.data) = none := by
      rw [List.findSome?_eq_none_iff]
      intro x hx
      exact h x (List.take_subset 20 lines hx)
    simp [extract_quarter, hn]

/-- Witness for C7: a transcript with no quarter token anywhere yields
the empty quarter. -/
theorem c7_quarter_extractor_witness :
    extract_quarter ["no fiscal token here"] "file.txt" = "" := by
  apply c7_quarter_extractor.2.1
  intro l hl
  simp only [List.mem_singleton] at hl
  subst hl
  decide

/-- C5: a content line processed while the current role is Operator is
appended to no accumulator: the step leaves all three untouched (and
being appended is the only way a line can reach an output body). -/
theorem c5_operator_exclusion (fuel : Nat) (lines : List String) (i : Nat)
    (sec : Option Sec) (bufs : Bufs)
    (hi : i < lines.length)
    (h1 : isSectionSep (lines.getD i "") = false)
    (h2 : isSpeakerSep (lines.getD i "") = false) :
    parseLoopF (fuel + 1) lines i sec (some Role.Operator) bufs =
      parseLoopF fuel lines (i + 1) sec (some Role.Operator) bufs :=
  contentStep_skip fuel lines i sec (some Role.Operator) bufs hi h1 h2 (by simp)

/-- Witness for C5 at a concrete Operator line in Q&A. -/
theorem c5_operator_exclusion_witness :
    parseLoopF 3 ["Next question please."] 0 (some Sec.QA) (some Role.Operator) emptyBufs =
      parseLoopF 2 ["Next question please."] 1 (some Sec.QA) (some Role.Operator) emptyBufs :=
  c5_operator_exclusion 2 ["Next question please."] 0 (some Sec.QA) emptyBufs
    (by decide) (by decide) (by decide)

/-- C8: no content line is appended while the section is still unset,
and a transcript with no marker line at all yields a record with all
three bodies empty and all three word counts zero. -/
theorem c8_unset_section :
    (∀ (fuel : Nat) (lines : List String) (i : Nat) (role : Option Role) (bufs : Bufs),
      i < lines.length →
      isSectionSep (lines.getD i "") = false →
      isSpeakerSep (lines.getD i "") = false →
      parseLoopF (fuel + 1) lines i none role bufs =
        parseLoopF fuel lines (i + 1) none role bufs) ∧
    (∀ (rawLines : List String) (ticker filename : String),
      (∀ l ∈ rawLines.map pyStrip, isSectionSep l = false ∧ isSpeakerSep l = false) →
      (parse_transcript rawLines ticker filename).prepared_remarks = "" ∧
      (parse_transcript rawLines ticker filename).qa_management = "" ∧
      (parse_transcript rawLines ticker filename).qa_analysts = "" ∧
      (parse_transcript rawLines ticker filename).word_count_prepared_remarks = 0 ∧
      (parse_transcript rawLines ticker filename).word_count_qa_management = 0 ∧
      (parse_transcript rawLines ticker filename).word_count_qa_analysts = 0) := by
  constructor
  · intro fuel lines i role bufs hi h1 h2
    exact contentStep_skip fuel lines i none role bufs hi h1 h2 (by simp)
  · intro rawLines ticker filename hall
    have hrun : parseLoopF ((rawLines.map pyStrip).length + 1) (rawLines.map pyStrip)
        0 none none emptyBufs = some emptyBufs :=
      noMarker_run _ _ _ _ _ hall (by omega)
    simp only [parse_transcript]
    rw [hrun]
    exact ⟨rfl, rfl, rfl, rfl, rfl, rfl⟩

/-- Witness for C8: a marker-free two-line transcript produces empty
bodies. -/
theorem c8_unset_section_witness :
    (parse_transcript ["just some prose", "and more prose"] "TICK" "file.txt").prepared_remarks = "" ∧
    (parse_transcript ["just some prose", "and more prose"] "TICK" "file.txt").word_count_qa_analysts = 0 := by
  have h := c8_unset_section.2 ["just some prose", "and more prose"] "TICK" "file.txt" (by decide)
  exact ⟨h.1, h.2.2.2.2.2⟩

/-- C2: a stray run of 30 or more dashes with a non-blank line right
after it and no closing marker in the lookahead is stepped over:
section, role and all three accumulators are unchanged and the scan
resumes at the very next line.  The dash line is classified as a
speaker marker, never as content, so no content is dropped by the
step. -/
theorem c2_stray_separator (fuel : Nat) (lines : List String) (i : Nat)
    (sec : Option Sec) (role : Option Role) (bufs : Bufs)
    (hi : i < lines.length)
    (hsep : isSpeakerSep (lines.getD i "") = true)
    (hnext : i + 1 < lines.length)
    (hnb : lines.getD (i + 1) "" ≠ "")
    (hk : ¬(skipBlanks lines (i + 2) < lines.length ∧
            isSpeakerSep (lines.getD (skipBlanks lines (i + 2)) "") = true)) :
    parseLoopF (fuel + 1) lines i sec role bufs =
      parseLoopF fuel lines (i + 1) sec role bufs :=
  speakerStep_invalid fuel lines i sec role bufs hi hsep hnext hnb hk

/-- Witness for C2: a dash run embedded in prose, with prose on both
sides, changes nothing. -/
theorem c2_stray_separator_witness :
    parseLoopF 8 ["prose before", dashLine, "prose after", "more prose"] 1
        (some Sec.Presentation) (some Role.Management) emptyBufs =
      parseLoopF 7 ["prose before", dashLine, "prose after", "more prose"] 2
        (some Sec.Presentation) (some Role.Management) emptyBufs :=
  c2_stray_separator 7 ["prose before", dashLine, "prose after", "more prose"] 1
    (some Sec.Presentation) (some Role.Management) emptyBufs
    (by decide) (by decide) (by decide) (by decide) (by decide)

/-- C10: a recognized section transition never modifies the current
speaker role, and content in Q&A before any Q&A speaker block is routed
by the carried-over role: Management to the management accumulator,
Analyst to the analyst accumulator, and discarded when the role is
still unset or is Operator. -/
theorem c10_section_preserves_role :
    (∀ (fuel : Nat) (lines : List String) (i : Nat) (sec : Option Sec)
        (role : Option Role) (bufs : Bufs),
      i < lines.length →
      isSectionSep (lines.getD i "") = true →
      skipBlanks lines (i + 1) < lines.length →
      strContains (strLower (lines.getD (skipBlanks lines (i + 1)) "")) "presentation" = true →
      parseLoopF (fuel + 1) lines i sec role bufs =
        parseLoopF fuel lines (skipBlanks lines (i + 1) + 1) (some Sec.Presentation) role bufs) ∧
    (∀ (fuel : Nat) (lines : List String) (i : Nat) (sec : Option Sec)
        (role : Option Role) (bufs : Bufs),
      i < lines.length →
      isSectionSep (lines.getD i "") = true →
      skipBlanks lines (i + 1) < lines.length →
      strContains (strLower (lines.getD (skipBlanks lines (i + 1)) "")) "presentation" = false →
      (strContains (strLower (lines.getD (skipBlanks lines (i + 1)) "")) "questions and answers" = true ∨
       strContains (strLower (lines.getD (skipBlanks lines (i + 1)) "")) "q&a" = true) →
      parseLoopF (fuel + 1) lines i sec role bufs =
        parseLoopF fuel lines (skipBlanks lines (i + 1) + 1) (some Sec.QA) role bufs) ∧
    (∀ (fuel : Nat) (lines : List String) (i : Nat) (bufs : Bufs),
      i < lines.length →
      isSectionSep (lines.getD i "") = false →
      isSpeakerSep (lines.getD i "") = false →
      lines.getD i "" ≠ "" →
      pyIsDigit (lines.getD i "") = false →
      strStarts (lines.getD i "") "Thomson Reuters" = false →
      parseLoopF (fuel + 1) lines i (some Sec.QA) (some Role.Management) bufs =
        parseLoopF fuel lines (i + 1) (some Sec.QA) (some Role.Management)
          { bufs with qm := bufs.qm ++ [lines.getD i ""] }) ∧
    (∀ (fuel : Nat) (lines : List String) (i : Nat) (bufs : Bufs),
      i < lines.length →
      isSectionSep (lines.getD i "") = false →
      isSpeakerSep (lines.getD i "") = false →
      lines.getD i "" ≠ "" →
      pyIsDigit (lines.getD i "") = false →
      strStarts (lines.getD i "") "Thomson Reuters" = false →
      parseLoopF (fuel + 1) lines i (some Sec.QA) (some Role.Analyst) bufs =
        parseLoopF fuel lines (i + 1) (some Sec.QA) (some Role.Analyst)
          { bufs with qa := bufs.qa ++ [lines.getD i ""] }) ∧
    (∀ (fuel : Nat) (lines : List String) (i : Nat) (bufs : Bufs),
      i < lines.length →
      isSectionSep (lines.getD i "") = false →
      isSpeakerSep (lines.getD i "") = false →
      lines.getD i "" ≠ "" →
      pyIsDigit (lines.getD i "") = false →
      strStarts (lines.getD i "") "Thomson Reuters" = false →
      parseLoopF (fuel + 1) lines i (some Sec.QA) none bufs =
        parseLoopF fuel lines (i + 1) (some Sec.QA) none bufs) ∧
    (∀ (fuel : Nat) (lines : List String) (i : Nat) (bufs : Bufs),
      i < lines.length →
      isSectionSep (lines.getD i "") = false →
      isSpeakerSep (lines.getD i "") = false →
      parseLoopF (fuel + 1) lines i (some Sec.QA) (some Role.Operator) bufs =
        parseLoopF fuel lines (i + 1) (some Sec.QA) (some Role.Operator) bufs) := by
  have hie : ∀ (lines : List String) (i : Nat), lines.getD i "" ≠ "" →
      (lines.getD i "").isEmpty = false := by
    intro lines i hne
    cases hie0 : (lines.getD i "").isEmpty with
    | false => rfl
    | true => exact absurd ((String.isEmpty_iff _).mp hie0) hne
  refine ⟨?_, ?_, ?_, ?_, ?_, ?_⟩
  · intro fuel lines i sec role bufs hi hsec hj hcap
    exact sectionStep_pres fuel lines i sec role bufs hi hsec hj hcap
  · intro fuel lines i sec role bufs hi hsec hj hnp hqa
    exact sectionStep_qa fuel lines i sec role bufs hi hsec hj hnp hqa
  · intro fuel lines i bufs hi h1 h2 hne hdig hth
    exact contentStep_append fuel lines i (some Sec.QA) (some Role.Management) bufs hi h1 h2
      (by rw [hie lines i hne]; rfl) (by rw [hdig, hth]; rfl)
  · intro fuel lines i bufs hi h1 h2 hne hdig hth
    exact contentStep_append fuel lines i (some Sec.QA) (some Role.Analyst) bufs hi h1 h2
      (by rw [hie lines i hne]; rfl) (by rw [hdig, hth]; rfl)
  · intro fuel lines i bufs hi h1 h2 hne hdig hth
    exact contentStep_append fuel lines i (some Sec.QA) none bufs hi h1 h2
      (by rw [hie lines i hne]; rfl) (by rw [hdig, hth]; rfl)
  · intro fuel lines i bufs hi h1 h2
    exact contentStep_skip fuel lines i (some Sec.QA) (some Role.Operator) bufs hi h1 h2 (by simp)

/-- Witness for C10: a Q&A section header keeps a Management role, and a
Q&A content line under that carried role lands in the management
accumulator. -/
theorem c10_section_preserves_role_witness :
    parseLoopF 9 [equalsLine, "Questions and Answers", "hello"] 0
        none (some Role.Management) emptyBufs =
      parseLoopF 8 [equalsLine, "Questions and Answers", "hello"] 2
        (some Sec.QA) (some Role.Management) emptyBufs ∧
    parseLoopF 7 ["hello"] 0 (some Sec.QA) (some Role.Management) emptyBufs =
      parseLoopF 6 ["hello"] 1 (some Sec.QA) (some Role.Management) ⟨[], ["hello"], []⟩ := by
  constructor
  · exact c10_section_preserves_role.2.1 8 [equalsLine, "Questions and Answers", "hello"] 0
      none (some Role.Management) emptyBufs (by decide) (by decide) (by decide) (by decide)
      (Or.inl (by decide))
  · exact c10_section_preserves_role.2.2.1 6 ["hello"] 0 emptyBufs
      (by decide) (by decide) (by decide) (by decide) (by decide) (by decide)

/-- C1 counterexample: on the scenario transcript the prepared-remarks
word count is not 4 (the body "Revenue grew 10%." has three
whitespace-delimited tokens). -/
theorem c1_wordcount_counterexample :
    (parse_transcript c1lines "TICK" "file.txt").word_count_prepared_remarks ≠ 4 := by
  decide

/-- C1 (amended): the scenario record has prepared_remarks
"Revenue grew 10%.", word count 3, and the Operator content line in
none of the three bodies. -/
theorem c1_scenario :
    (parse_transcript c1lines "TICK" "file.txt").prepared_remarks = "Revenue grew 10%." ∧
    (parse_transcript c1lines "TICK" "file.txt").word_count_prepared_remarks = 3 ∧
    strContains (parse_transcript c1lines "TICK" "file.txt").prepared_remarks
      "Next question please." = false ∧
    (parse_transcript c1lines "TICK" "file.txt").qa_management = "" ∧
    (parse_transcript c1lines "TICK" "file.txt").qa_analysts = "" := by
  decide

/-- C4 counterexample: a caption that contains "disclaimer" but also
contains "presentation" does not halt the scan — the Presentation test
fires first, and a later line still reaches a body. -/
theorem c4_caption_precedence_counterexample :
    strContains (strLower "Presentation and Disclaimer") "disclaimer" = true ∧
    isSectionSep equalsLine = true ∧
    (parse_transcript c4lines "TICK" "file.txt").prepared_remarks = "Later line" := by
  decide

/-- C4 (amended): a section marker whose caption contains "definitions"
or "disclaimer" and contains none of the recognized section names halts
the scan at once: the accumulators are returned as they stand, so no
later line can reach any body. -/
theorem c4_terminal_caption_halts (fuel : Nat) (lines : List String) (i : Nat)
    (sec : Option Sec) (role : Option Role) (bufs : Bufs)
    (hi : i < lines.length)
    (hsec : isSectionSep (lines.getD i "") = true)
    (hj : skipBlanks lines (i + 1) < lines.length)
    (hnp : strContains (strLower (lines.getD (skipBlanks lines (i + 1)) "")) "presentation" = false)
    (hnq1 : strContains (strLower (lines.getD (skipBlanks lines (i + 1)) "")) "questions and answers" = false)
    (hnq2 : strContains (strLower (lines.getD (skipBlanks lines (i + 1)) "")) "q&a" = false)
    (hterm : strContains (strLower (lines.getD (skipBlanks lines (i + 1)) "")) "definitions" = true ∨
             strContains (strLower (lines.getD (skipBlanks lines (i + 1)) "")) "disclaimer" = true) :
    parseLoopF (fuel + 1) lines i sec role bufs = some bufs :=
  sectionStep_halt fuel lines i sec role bufs hi hsec hj hnp hnq1 hnq2 hterm

/-- Witness for C4: a plain Definitions caption halts the scan with the
accumulators as they stand. -/
theorem c4_terminal_caption_halts_witness :
    parseLoopF 6 [equalsLine, "Definitions", "ignored line"] 0
        (some Sec.Presentation) (some Role.Management) emptyBufs = some emptyBufs :=
  c4_terminal_caption_halts 5 [equalsLine, "Definitions", "ignored line"] 0
    (some Sec.Presentation) (some Role.Management) emptyBufs
    (by decide) (by decide) (by decide) (by decide) (by decide) (by decide)
    (Or.inl (by decide))

end TranscriptParse
